import Mathlib

/-!
Verification of the MMF analyzer (`src/mmf_analyzer.py`).

Shallow embedding: Python `Decimal` values are modelled as exact rationals
(`ℚ`); `datetime.date` is a `Date` structure with the Gregorian calendar
rules of Python's `calendar` module; fallible Python code (exceptions)
is modelled with `Except String`.
-/

/-- A calendar date (year, 1-based month, 1-based day), as `datetime.date`. -/
structure Date where
  year : ℤ
  month : ℤ
  day : ℤ
deriving DecidableEq, Repr

/-- `calendar.isleap`: Gregorian leap-year rule. -/
def isLeapYear (y : ℤ) : Bool :=
  y % 4 == 0 && (y % 100 != 0 || y % 400 == 0)

/-- `calendar.monthrange(y, m)[1]`: number of days of month `m` of year `y`. -/
def monthLength (y m : ℤ) : ℤ :=
  if m = 2 then (if isLeapYear y then 29 else 28)
  else if m = 4 ∨ m = 6 ∨ m = 9 ∨ m = 11 then 30
  else 31

/-- The fund record (`Fund` dataclass): name, annual rate (%), management
fee rate (%), minimum investment. -/
structure Fund where
  name : String
  rate : ℚ
  mgt_fee : ℚ
  minimum_investment : ℚ
deriving DecidableEq, Repr

/-- `Fund.__post_init__`: validation run at construction.  Python falsyness
of `Decimal` (`not d` holds exactly when `d == 0`) is modelled by an
explicit `= 0` disjunct, mirroring the source's `not self.rate or ...`
conditions; the `isinstance` checks always pass in the typed embedding. -/
def fundPostInit (name : String) (rate mgt_fee minimum_investment : ℚ) :
    Except String Fund :=
  if name = "" then
    .error "Fund name must be a non-empty string"
  else if rate = 0 ∨ rate ≤ 0 then
    .error ("Invalid rate for fund " ++ name)
  else if mgt_fee = 0 ∨ mgt_fee < 0 then
    .error ("Invalid management fee for fund " ++ name)
  else if minimum_investment = 0 ∨ minimum_investment < 0 then
    .error ("Invalid minimum investment for fund " ++ name)
  else
    .ok ⟨name, rate, mgt_fee, minimum_investment⟩

/-- The validated parameter bundle handed to the engine (the `params`
dictionary): initial capital, monthly contribution, investment period in
months, withholding tax (%), fee switch, start date. -/
structure Params where
  initial_capital : ℚ
  monthly_contribution : ℚ
  investment_period : ℕ
  withholding_tax : ℚ
  include_fees : Bool
  start_date : Date
deriving DecidableEq, Repr

/-- `MMFAnalyzer.add_months`: add `months` months to a date; the
day-of-month is clamped to the target month's length.  Python's floor
division `//` is `Int.fdiv` and its `%` is `Int.emod`. -/
def add_months (date : Date) (months : ℤ) : Date :=
  let m := date.month - 1 + months
  let year := date.year + Int.fdiv m 12
  let month := Int.emod m 12 + 1
  let day := min date.day (monthLength year month)
  ⟨year, month, day⟩

/-- `MMFAnalyzer.get_month_days`: day count of the month containing `date`. -/
def get_month_days (date : Date) : ℤ :=
  monthLength date.year date.month

/-- `date + datetime.timedelta(days=1)` for a valid date. -/
def nextDay (d : Date) : Date :=
  if d.day < monthLength d.year d.month then ⟨d.year, d.month, d.day + 1⟩
  else if d.month < 12 then ⟨d.year, d.month + 1, 1⟩
  else ⟨d.year + 1, 1, 1⟩

/-- `date + datetime.timedelta(days=n)` for a valid date. -/
def addDays (d : Date) : ℕ → Date
  | 0 => d
  | n + 1 => addDays (nextDay d) n

/-- `MMFAnalyzer.calculate_daily_interest`: one day's after-tax interest. -/
def calculate_daily_interest (balance daily_rate withholding_tax : ℚ) : ℚ :=
  let daily_interest := balance * daily_rate
  daily_interest * (1 - withholding_tax / 100)

/-- Rounding to the nearest integer with ties away from zero, the
behaviour of `decimal.ROUND_HALF_UP`. -/
def roundHalfUp (x : ℚ) : ℤ :=
  if 0 ≤ x then ⌊x + 1 / 2⌋ else -⌊-x + 1 / 2⌋

/-- `Decimal.quantize(Decimal("0.01"), rounding=ROUND_HALF_UP)`:
round to the smallest currency unit (0.01). -/
def quantize2 (x : ℚ) : ℚ :=
  (roundHalfUp (x * 100) : ℚ) / 100

/-- `MMFAnalyzer.calculate_management_fee`: monthly fee from the average
of opening and closing balance, rounded to 0.01 half-up. -/
def calculate_management_fee (opening_balance closing_balance mgt_fee_rate : ℚ) : ℚ :=
  let average_balance := (opening_balance + closing_balance) / 2
  let monthly_fee := average_balance * mgt_fee_rate / 100 / 12
  quantize2 monthly_fee

/-- The daily rate the engine derives on line 177 of the source:
`fund.rate / 365 / 100`. -/
def dailyRate (fund : Fund) : ℚ :=
  fund.rate / 365 / 100

/-- One entry of the per-day trace (`daily_balances` list items: date,
post-accrual balance, the day's interest). -/
structure DayEntry where
  date : Date
  balance : ℚ
  interest : ℚ
deriving DecidableEq, Repr

/-- The per-day accrual loop of `calculate_monthly_returns` (lines
193–205): `days` iterations, each computing the day's after-tax interest,
adding it to the balance and to the interest accumulator, and appending a
trace entry. -/
def dayLoop (rate tax : ℚ) (date : Date) :
    ℕ → ℕ → ℚ → ℚ → List DayEntry → ℚ × ℚ × List DayEntry
  | 0, _, balance, interest, trace => (balance, interest, trace)
  | days + 1, day, balance, interest, trace =>
    let di := calculate_daily_interest balance rate tax
    dayLoop rate tax date days (day + 1) (balance + di) (interest + di)
      (trace ++ [⟨addDays date day, balance + di, di⟩])

/-- The result dictionary of `calculate_monthly_returns`. -/
structure MonthlyResult where
  balance : ℚ
  interest : ℚ
  fee : ℚ
  daily_balances : List DayEntry
deriving DecidableEq, Repr

/-- `MMFAnalyzer.calculate_monthly_returns`: settle one month — optional
contribution (months after the first), day-by-day accrual, optional fee. -/
def calculate_monthly_returns (fund : Fund) (params : Params)
    (current_date : Date) (month : ℕ) (starting_balance : ℚ) : MonthlyResult :=
  let days_in_month := (get_month_days current_date).toNat
  let withholding_tax := params.withholding_tax
  let opening_balance := starting_balance
  let balance :=
    if month > 0 then starting_balance + params.monthly_contribution
    else starting_balance
  let r := dayLoop (dailyRate fund) withholding_tax current_date
    days_in_month 0 balance 0 []
  let balance := r.1
  let month_interest := r.2.1
  let daily_balances := r.2.2
  let monthly_fee :=
    if params.include_fees then
      calculate_management_fee opening_balance balance fund.mgt_fee
    else 0
  let balance := if params.include_fees then balance - monthly_fee else balance
  ⟨balance, month_interest, monthly_fee, daily_balances⟩

/-- The running state of the month loop in `calculate_returns`. -/
structure ProjState where
  balance : ℚ
  total_interest : ℚ
  total_fees : ℚ
  total_contribution : ℚ
  current_date : Date
  monthly_balances : List (Date × ℚ)
  daily_details : List DayEntry
deriving DecidableEq, Repr

/-- The result dictionary of `calculate_returns`.  The source converts the
monetary totals to `float` at this point; the embedding keeps them exact. -/
structure ProjResult where
  final_balance : ℚ
  total_interest : ℚ
  total_fees : ℚ
  total_contribution : ℚ
  monthly_balances : List (Date × ℚ)
  daily_details : List DayEntry
  net_return_percent : ℚ
deriving DecidableEq, Repr

/-- One iteration of the month loop of `calculate_returns` (lines 236–254). -/
def projStep (fund : Fund) (params : Params) (month : ℕ) (st : ProjState) :
    ProjState :=
  let mr := calculate_monthly_returns fund params st.current_date month st.balance
  { balance := mr.balance
    total_interest := st.total_interest + mr.interest
    total_fees := st.total_fees + mr.fee
    total_contribution :=
      if month > 0 then st.total_contribution + params.monthly_contribution
      else st.total_contribution
    current_date := add_months st.current_date 1
    monthly_balances :=
      st.monthly_balances ++ [(add_months st.current_date 1, mr.balance)]
    daily_details := st.daily_details ++ mr.daily_balances }

/-- The month loop of `calculate_returns`: `remaining` iterations starting
at month index `month`. -/
def projLoop (fund : Fund) (params : Params) :
    ℕ → ℕ → ProjState → ProjState
  | 0, _, st => st
  | remaining + 1, month, st =>
    projLoop fund params remaining (month + 1) (projStep fund params month st)

/-- The initial state of `calculate_returns` (lines 225–232). -/
def initState (params : Params) : ProjState :=
  { balance := params.initial_capital
    total_interest := 0
    total_fees := 0
    total_contribution := params.initial_capital
    current_date := params.start_date
    monthly_balances := [(params.start_date, params.initial_capital)]
    daily_details := [] }

/-- `MMFAnalyzer.calculate_returns`: full-horizon projection for one fund
(the body of the `try` block; in the exact-arithmetic embedding no
exception arises). -/
def calculate_returns (fund : Fund) (params : Params) : ProjResult :=
  let st := projLoop fund params params.investment_period 0 (initState params)
  let net_return :=
    if st.total_contribution ≠ 0 then
      (st.balance - st.total_contribution) / st.total_contribution * 100
    else 0
  { final_balance := st.balance
    total_interest := st.total_interest
    total_fees := st.total_fees
    total_contribution := st.total_contribution
    monthly_balances := st.monthly_balances
    daily_details := st.daily_details
    net_return_percent := net_return }

/-- A monthly computation that may raise, abstracting the body of the
month loop of `calculate_returns`: in Python any runtime error inside the
`try` block propagates out of the loop.  `calculate_monthly_returns` never
fails in exact arithmetic, so the fallible step is a parameter; the
non-failing instantiation is `okStep`. -/
def StepFn : Type :=
  Fund → Params → Date → ℕ → ℚ → Except String MonthlyResult

/-- The non-failing monthly step: the real `calculate_monthly_returns`. -/
def okStep : StepFn :=
  fun fund params date month balance =>
    .ok (calculate_monthly_returns fund params date month balance)

/-- One iteration of the month loop with a fallible monthly step. -/
def projStepE (step : StepFn) (fund : Fund) (params : Params) (month : ℕ)
    (st : ProjState) : Except String ProjState := do
  let mr ← step fund params st.current_date month st.balance
  pure
    { balance := mr.balance
      total_interest := st.total_interest + mr.interest
      total_fees := st.total_fees + mr.fee
      total_contribution :=
        if month > 0 then st.total_contribution + params.monthly_contribution
        else st.total_contribution
      current_date := add_months st.current_date 1
      monthly_balances :=
        st.monthly_balances ++ [(add_months st.current_date 1, mr.balance)]
      daily_details := st.daily_details ++ mr.daily_balances }

/-- The month loop of `calculate_returns` with a fallible monthly step:
the first error aborts the remaining iterations, as a Python exception
leaves the `for` loop. -/
def projLoopE (step : StepFn) (fund : Fund) (params : Params) :
    ℕ → ℕ → ProjState → Except String ProjState
  | 0, _, st => .ok st
  | remaining + 1, month, st => do
    let st' ← projStepE step fund params month st
    projLoopE step fund params remaining (month + 1) st'

/-- `MMFAnalyzer.calculate_returns` with its `try`/`except` (lines
234–276): any error raised inside the loop is wrapped into
`"Error calculating returns for <fund name>: <cause>"`. -/
def calculate_returnsE (step : StepFn) (fund : Fund) (params : Params) :
    Except String ProjResult :=
  match projLoopE step fund params params.investment_period 0 (initState params) with
  | .error e => .error ("Error calculating returns for " ++ fund.name ++ ": " ++ e)
  | .ok st =>
    let net_return :=
      if st.total_contribution ≠ 0 then
        (st.balance - st.total_contribution) / st.total_contribution * 100
      else 0
    .ok
      { final_balance := st.balance
        total_interest := st.total_interest
        total_fees := st.total_fees
        total_contribution := st.total_contribution
        monthly_balances := st.monthly_balances
        daily_details := st.daily_details
        net_return_percent := net_return }

/-- The per-fund loop of `MMFAnalyzer.print_results` (lines 361–371): every
fund of `self.funds` is attempted; a fund whose calculation raises is
reported as a warning carrying the exception message, the others are
collected as results.  Returns (results, warnings). -/
def compareFunds (calcFn : Fund → Except String ProjResult) :
    List Fund → List (Fund × ProjResult) × List (Fund × String)
  | [] => ([], [])
  | fund :: rest =>
    let r := compareFunds calcFn rest
    match calcFn fund with
    | .ok result => ((fund, result) :: r.1, r.2)
    | .error e => (r.1, (fund, e) :: r.2)

/-- `MMFAnalyzer.validate_parameters` (lines 100–134).  On success it
returns the list of funds the source prints in the
"require higher minimum investment" note — the note is the only effect of
the minimum-investment screen besides the all-funds-excluded error; the
fund list itself is NOT filtered. -/
def validate_parameters (funds : List Fund) (params : Params) :
    Except String (List Fund) :=
  if params.initial_capital ≤ 0 then
    .error "Initial capital must be positive"
  else if params.monthly_contribution < 0 then
    .error "Monthly contribution cannot be negative"
  else if params.investment_period ≤ 0 then
    .error "Investment period must be positive"
  else if ¬(0 ≤ params.withholding_tax ∧ params.withholding_tax ≤ 100) then
    .error "Withholding tax must be between 0 and 100"
  else if (funds.filter fun f => f.minimum_investment ≤ params.initial_capital) = [] then
    .error "Initial capital is below the minimum investment requirement"
  else
    .ok (funds.filter fun f => f.minimum_investment > params.initial_capital)

/-- Test fixture: a fund with minimum investment 1000. -/
def fundA : Fund := ⟨"Fund A", 12, 1, 1000⟩

/-- Test fixture: a fund with minimum investment 100. -/
def fundB : Fund := ⟨"Fund B", 10, 1, 100⟩

/-- Test fixture: a one-month run with 500 of initial capital. -/
def params500 : Params :=
  { initial_capital := 500
    monthly_contribution := 0
    investment_period := 1
    withholding_tax := 15
    include_fees := true
    start_date := ⟨2024, 1, 1⟩ }

/-- Test fixture: a fund whose monthly computation `badStep` corrupts. -/
def badFund : Fund := ⟨"Bad Fund", 10, 1, 100⟩

/-- Test fixture: a fund `badStep` leaves intact. -/
def goodFund : Fund := ⟨"Good Fund", 10, 1, 100⟩

/-- Test fixture: a monthly step that raises for `badFund` only. -/
def badStep : StepFn := fun fund params date month balance =>
  if fund.name = "Bad Fund" then .error "corrupt rate"
  else okStep fund params date month balance

/- ------------------------------------------------------------------ -/
/- Theorems                                                            -/
/- ------------------------------------------------------------------ -/

/-- C4: Day Accrual returns exactly `B * r * (1 - t/100)` with no
rounding, and the daily rate the engine passes to it (source line 177,
`dailyRate` in the embedding of `calculate_monthly_returns`) is
`annual_rate / 365 / 100`.  The equality is exact over the full argument
range, hence in particular for tax percentages in [0, 100]. -/
theorem C4_day_accrual_formula :
    (∀ B r t : ℚ, calculate_daily_interest B r t = B * r * (1 - t / 100)) ∧
    (∀ fund : Fund, dailyRate fund = fund.rate / 365 / 100) :=
  ⟨fun _ _ _ => rfl, fun _ => rfl⟩

/-- C6 fails as stated: at the admissible tax percentage t = 100 the
after-tax accrual is `B * r * (1 - 100/100) = 0`, not strictly positive
(with B = 1, r = 1). -/
theorem C6_counterexample :
    ¬ (0 < calculate_daily_interest 1 1 100) := by
  norm_num [calculate_daily_interest]

/-- C6 amended: for positive balance and rate and tax percentage in
[0, 100) — excluding t = 100, where the accrual is zero — the accrual is
strictly positive and strictly increasing in B and in r; and it is
strictly decreasing in t (for any higher tax percentage up to 100). -/
theorem C6_day_accrual_monotone (B B' r r' t t' : ℚ)
    (hB : 0 < B) (hr : 0 < r) (ht0 : 0 ≤ t) (ht1 : t < 100) :
    0 < calculate_daily_interest B r t ∧
    (B < B' → calculate_daily_interest B r t < calculate_daily_interest B' r t) ∧
    (r < r' → calculate_daily_interest B r t < calculate_daily_interest B r' t) ∧
    (t < t' → t' ≤ 100 →
      calculate_daily_interest B r t' < calculate_daily_interest B r t) := by
  simp only [calculate_daily_interest]
  have h100 : 0 < 1 - t / 100 := by linarith
  refine ⟨mul_pos (mul_pos hB hr) h100, ?_, ?_, ?_⟩
  · intro hBB
    exact mul_lt_mul_of_pos_right (mul_lt_mul_of_pos_right hBB hr) h100
  · intro hrr
    exact mul_lt_mul_of_pos_right (mul_lt_mul_of_pos_left hrr hB) h100
  · intro htt _
    have h : 1 - t' / 100 < 1 - t / 100 := by linarith
    exact mul_lt_mul_of_pos_left h (mul_pos hB hr)

/-- Witness for C6's amended theorem at B = 1, B' = 2, r = 1, r' = 2,
t = 0, t' = 50. -/
theorem C6_day_accrual_monotone_witness :
    (0 : ℚ) < 1 ∧ (0 : ℚ) ≤ 0 ∧ (0 : ℚ) < 100 ∧
    (0 < calculate_daily_interest 1 1 0 ∧
     ((1 : ℚ) < 2 → calculate_daily_interest 1 1 0 < calculate_daily_interest 2 1 0) ∧
     ((1 : ℚ) < 2 → calculate_daily_interest 1 1 0 < calculate_daily_interest 1 2 0) ∧
     ((0 : ℚ) < 50 → (50 : ℚ) ≤ 100 →
       calculate_daily_interest 1 1 50 < calculate_daily_interest 1 1 0)) :=
  ⟨by norm_num, le_refl 0, by norm_num,
    C6_day_accrual_monotone 1 2 1 2 0 50 (by norm_num) (by norm_num)
      (le_refl 0) (by norm_num)⟩

/-- C2 fails on the code and the spec is the intent: `__post_init__`
checks `not self.mgt_fee` and `not self.minimum_investment`, and
`Decimal("0")` is falsy in Python, so a fee rate of exactly 0 or a
minimum investment of exactly 0 raises `ValueError` even though the
adjacent comparisons are the deliberate non-strict `< 0` (unlike the
rate's `<= 0`) and the documented ranges are fee ≥ 0, minimum ≥ 0.
Construction does succeed on strictly positive values. -/
theorem C2_code_bug :
    fundPostInit "F" 5 0 1000 = .error "Invalid management fee for fund F" ∧
    fundPostInit "F" 5 1 0 = .error "Invalid minimum investment for fund F" ∧
    fundPostInit "F" 5 1 1000 = .ok ⟨"F", 5, 1, 1000⟩ ∧
    fundPostInit "F" 5 (-1) 1000 = .error "Invalid management fee for fund F" ∧
    fundPostInit "" 5 1 1000 = .error "Fund name must be a non-empty string" := by
  refine ⟨?_, ?_, ?_, ?_, ?_⟩ <;> rfl

/-- C7: advancing Jan 31 by one calendar month with `add_months` yields
Feb 28 in a non-leap year (2023) and Feb 29 in a leap year (2024);
advancing it by two months — two successive one-month advances, as the
engine's month loop performs on source line 250 — yields Mar 28/29, not
Mar 31; and in general the day-of-month of an `add_months` result is the
source day clamped to the target month's length. -/
theorem C7_add_months_clamps :
    add_months ⟨2023, 1, 31⟩ 1 = ⟨2023, 2, 28⟩ ∧
    add_months ⟨2024, 1, 31⟩ 1 = ⟨2024, 2, 29⟩ ∧
    add_months (add_months ⟨2023, 1, 31⟩ 1) 1 = ⟨2023, 3, 28⟩ ∧
    add_months (add_months ⟨2024, 1, 31⟩ 1) 1 = ⟨2024, 3, 29⟩ ∧
    add_months (add_months ⟨2023, 1, 31⟩ 1) 1 ≠ ⟨2023, 3, 31⟩ ∧
    ∀ (d : Date) (n : ℤ), (add_months d n).day
      = min d.day (monthLength (add_months d n).year (add_months d n).month) :=
  ⟨by decide, by decide, by decide, by decide, by decide, fun _ _ => rfl⟩

/-- Invariant of the per-day accrual loop: the balance grows by exactly
the interest accumulated, and the interest entries appended to the trace
sum to exactly that growth. -/
theorem dayLoop_spec (rate tax : ℚ) (date : Date) (n : ℕ) :
    ∀ (day : ℕ) (b i : ℚ) (tr : List DayEntry),
      (dayLoop rate tax date n day b i tr).1
        = b + ((dayLoop rate tax date n day b i tr).2.1 - i) ∧
      ((dayLoop rate tax date n day b i tr).2.2.map DayEntry.interest).sum
        = (tr.map DayEntry.interest).sum
          + ((dayLoop rate tax date n day b i tr).2.1 - i) := by
  induction n with
  | zero =>
    intro day b i tr
    simp [dayLoop]
  | succ k ih =>
    intro day b i tr
    simp only [dayLoop]
    obtain ⟨h1, h2⟩ := ih (day + 1)
      (b + calculate_daily_interest b rate tax)
      (i + calculate_daily_interest b rate tax)
      (tr ++ [⟨addDays date day, b + calculate_daily_interest b rate tax,
        calculate_daily_interest b rate tax⟩])
    refine ⟨by rw [h1]; ring, ?_⟩
    rw [h2]
    simp only [List.map_append, List.sum_append, List.map_cons, List.map_nil,
      List.sum_cons, List.sum_nil]
    ring

/-- The closing balance of the day loop is its opening balance plus the
interest it accumulates. -/
theorem dayLoop_closing (rate tax : ℚ) (date : Date) (n : ℕ) (b0 : ℚ) :
    (dayLoop rate tax date n 0 b0 0 []).1
      = b0 + (dayLoop rate tax date n 0 b0 0 []).2.1 := by
  simpa using (dayLoop_spec rate tax date n 0 b0 0 []).1

/-- The trace of the day loop carries interest entries summing to the
interest accumulator. -/
theorem dayLoop_trace_sum (rate tax : ℚ) (date : Date) (n : ℕ) (b0 : ℚ) :
    ((dayLoop rate tax date n 0 b0 0 []).2.2.map DayEntry.interest).sum
      = (dayLoop rate tax date n 0 b0 0 []).2.1 := by
  simpa using (dayLoop_spec rate tax date n 0 b0 0 []).2

/-- The contribution-inclusive opening balance of a period (line 184–186
of the source): the contribution is added for every month after the
first. -/
def monthOpening (params : Params) (month : ℕ) (sb : ℚ) : ℚ :=
  if month > 0 then sb + params.monthly_contribution else sb

/-- Field characterization: the interest accumulator of
`calculate_monthly_returns` is the day loop's. -/
theorem cmr_interest (fund : Fund) (params : Params)
    (date : Date) (month : ℕ) (sb : ℚ) :
    (calculate_monthly_returns fund params date month sb).interest
      = (dayLoop (dailyRate fund) params.withholding_tax date
          (get_month_days date).toNat 0 (monthOpening params month sb) 0 []).2.1 :=
  rfl

/-- Field characterization: the trace of `calculate_monthly_returns` is
the day loop's. -/
theorem cmr_trace (fund : Fund) (params : Params)
    (date : Date) (month : ℕ) (sb : ℚ) :
    (calculate_monthly_returns fund params date month sb).daily_balances
      = (dayLoop (dailyRate fund) params.withholding_tax date
          (get_month_days date).toNat 0 (monthOpening params month sb) 0 []).2.2 :=
  rfl

/-- Field characterization: the fee of `calculate_monthly_returns` is the
management fee of the opening balance and the day loop's closing balance
when fees are enabled, and 0 otherwise. -/
theorem cmr_fee (fund : Fund) (params : Params)
    (date : Date) (month : ℕ) (sb : ℚ) :
    (calculate_monthly_returns fund params date month sb).fee
      = (if params.include_fees then
          calculate_management_fee sb
            (dayLoop (dailyRate fund) params.withholding_tax date
              (get_month_days date).toNat 0 (monthOpening params month sb) 0 []).1
            fund.mgt_fee
        else 0) :=
  rfl

/-- Field characterization: the closing balance of
`calculate_monthly_returns` is the day loop's closing balance, less the
fee when fees are enabled. -/
theorem cmr_balance (fund : Fund) (params : Params)
    (date : Date) (month : ℕ) (sb : ℚ) :
    (calculate_monthly_returns fund params date month sb).balance
      = (if params.include_fees then
          (dayLoop (dailyRate fund) params.withholding_tax date
            (get_month_days date).toNat 0 (monthOpening params month sb) 0 []).1
            - (calculate_monthly_returns fund params date month sb).fee
        else
          (dayLoop (dailyRate fund) params.withholding_tax date
            (get_month_days date).toNat 0 (monthOpening params month sb) 0 []).1) :=
  rfl

/-- The interest accumulator of a settled period equals the sum of the
per-day interest entries of its trace. -/
theorem monthly_interest_eq_trace_sum (fund : Fund) (params : Params)
    (date : Date) (month : ℕ) (sb : ℚ) :
    ((calculate_monthly_returns fund params date month sb).daily_balances.map
        DayEntry.interest).sum
      = (calculate_monthly_returns fund params date month sb).interest := by
  rw [cmr_trace, cmr_interest, dayLoop_trace_sum]

/-- The settlement balance equation, shared: closing balance = opening
+ contribution (for months after the first) + trace interest sum − fee
(when enabled). -/
theorem monthly_balance_equation (fund : Fund) (params : Params)
    (date : Date) (month : ℕ) (sb : ℚ) :
    (calculate_monthly_returns fund params date month sb).balance
      = sb + (if month > 0 then params.monthly_contribution else 0)
        + ((calculate_monthly_returns fund params date month sb).daily_balances.map
            DayEntry.interest).sum
        - (if params.include_fees then
            (calculate_monthly_returns fund params date month sb).fee else 0) := by
  rw [monthly_interest_eq_trace_sum, cmr_balance, cmr_interest, dayLoop_closing,
    monthOpening]
  split_ifs <;> ring

/-- C3: the closing balance of a settled period equals the opening
balance, plus the monthly contribution when the zero-based period index
is positive, plus the sum of the per-day after-tax interest amounts of
the period's trace, minus the fee when fee application is enabled. -/
theorem C3_period_balance_equation (fund : Fund) (params : Params)
    (date : Date) (month : ℕ) (sb : ℚ) :
    (calculate_monthly_returns fund params date month sb).balance
      = sb + (if month > 0 then params.monthly_contribution else 0)
        + ((calculate_monthly_returns fund params date month sb).daily_balances.map
            DayEntry.interest).sum
        - (if params.include_fees then
            (calculate_monthly_returns fund params date month sb).fee else 0) :=
  monthly_balance_equation fund params date month sb

/-- The balance reached after contribution and accrual but before the
fee — the `closing_balance_pre_fee` of the spec. -/
theorem monthly_pre_fee_balance (fund : Fund) (params : Params)
    (date : Date) (month : ℕ) (sb : ℚ) :
    (dayLoop (dailyRate fund) params.withholding_tax date
        (get_month_days date).toNat 0 (monthOpening params month sb) 0 []).1
      = sb + (if month > 0 then params.monthly_contribution else 0)
        + (calculate_monthly_returns fund params date month sb).interest := by
  rw [cmr_interest, dayLoop_closing, monthOpening]
  split_ifs <;> ring

/-- `calculate_management_fee`, unfolded. -/
theorem calculate_management_fee_def (o c rate : ℚ) :
    calculate_management_fee o c rate
      = quantize2 ((o + c) / 2 * rate / 100 / 12) :=
  rfl

/-- C5: with fees enabled, the period's fee is
`((opening + closing_pre_fee) / 2) * annual_fee_rate / 100 / 12`
rounded to 0.01 half-up (`quantize2`), where `closing_pre_fee` is the
opening balance plus contribution (for periods after the first) plus the
period's interest, and the fee is subtracted from the balance exactly
once. -/
theorem C5_management_fee (fund : Fund) (params : Params)
    (date : Date) (month : ℕ) (sb : ℚ)
    (hf : params.include_fees = true) :
    (calculate_monthly_returns fund params date month sb).fee
      = quantize2 (((sb + (sb + (if month > 0 then params.monthly_contribution else 0)
            + (calculate_monthly_returns fund params date month sb).interest)) / 2)
          * fund.mgt_fee / 100 / 12) ∧
    (calculate_monthly_returns fund params date month sb).balance
      = sb + (if month > 0 then params.monthly_contribution else 0)
        + (calculate_monthly_returns fund params date month sb).interest
        - (calculate_monthly_returns fund params date month sb).fee := by
  have hpre := monthly_pre_fee_balance fund params date month sb
  constructor
  · rw [cmr_fee, if_pos hf, hpre, calculate_management_fee_def]
  · rw [monthly_balance_equation, monthly_interest_eq_trace_sum, if_pos hf]

/-- Witness for C5 at a concrete input: `fundB`, `params500`
(fees enabled), month index 0, opening balance 500. -/
theorem C5_management_fee_witness :
    params500.include_fees = true ∧
    ((calculate_monthly_returns fundB params500 ⟨2024, 1, 1⟩ 0 500).fee
      = quantize2 (((500 + (500 + (if 0 > 0 then params500.monthly_contribution else 0)
            + (calculate_monthly_returns fundB params500 ⟨2024, 1, 1⟩ 0 500).interest)) / 2)
          * fundB.mgt_fee / 100 / 12) ∧
    (calculate_monthly_returns fundB params500 ⟨2024, 1, 1⟩ 0 500).balance
      = 500 + (if 0 > 0 then params500.monthly_contribution else 0)
        + (calculate_monthly_returns fundB params500 ⟨2024, 1, 1⟩ 0 500).interest
        - (calculate_monthly_returns fundB params500 ⟨2024, 1, 1⟩ 0 500).fee) :=
  ⟨rfl, C5_management_fee fundB params500 ⟨2024, 1, 1⟩ 0 500 rfl⟩

/-- C10: the opening side of the fee's average-balance base is the
period's balance BEFORE the monthly contribution: for every period after
the first, the fee equals `calculate_management_fee` applied to the
pre-contribution opening balance and the contribution-inclusive pre-fee
closing balance, so the contribution appears only on the closing side. -/
theorem C10_fee_uses_pre_contribution_opening (fund : Fund) (params : Params)
    (date : Date) (month : ℕ) (sb : ℚ)
    (hm : 0 < month) (hf : params.include_fees = true) :
    (calculate_monthly_returns fund params date month sb).fee
      = calculate_management_fee sb
          (sb + params.monthly_contribution
            + (calculate_monthly_returns fund params date month sb).interest)
          fund.mgt_fee := by
  have hpre := monthly_pre_fee_balance fund params date month sb
  rw [cmr_fee, if_pos hf, hpre, if_pos hm]

/-- Witness for C10 at a concrete input: month index 1. -/
theorem C10_fee_uses_pre_contribution_opening_witness :
    0 < 1 ∧ params500.include_fees = true ∧
    (calculate_monthly_returns fundB params500 ⟨2024, 2, 1⟩ 1 500).fee
      = calculate_management_fee 500
          (500 + params500.monthly_contribution
            + (calculate_monthly_returns fundB params500 ⟨2024, 2, 1⟩ 1 500).interest)
          fundB.mgt_fee :=
  ⟨by decide, rfl,
    C10_fee_uses_pre_contribution_opening fundB params500 ⟨2024, 2, 1⟩ 1 500
      (by decide) rfl⟩

/-- Field characterization: the total contributed after one month-loop
iteration. -/
theorem projStep_contribution (fund : Fund) (params : Params) (month : ℕ)
    (st : ProjState) :
    (projStep fund params month st).total_contribution
      = (if month > 0 then st.total_contribution + params.monthly_contribution
         else st.total_contribution) :=
  rfl

/-- From any month index ≥ 1, `k` iterations of the month loop add the
monthly contribution to the total contributed exactly `k` times. -/
theorem projLoop_contribution_pos (fund : Fund) (params : Params) (k : ℕ) :
    ∀ (m : ℕ) (st : ProjState), 1 ≤ m →
      (projLoop fund params k m st).total_contribution
        = st.total_contribution + params.monthly_contribution * k := by
  induction k with
  | zero =>
    intro m st _
    simp [projLoop]
  | succ n ih =>
    intro m st hm
    simp only [projLoop]
    rw [ih (m + 1) _ (by omega), projStep_contribution,
      if_pos (show m > 0 from hm)]
    push_cast
    ring

/-- Field characterization: the total contributed of a full projection is
the month loop's. -/
theorem calculate_returns_contribution (fund : Fund) (params : Params) :
    (calculate_returns fund params).total_contribution
      = (projLoop fund params params.investment_period 0
          (initState params)).total_contribution :=
  rfl

/-- C8: the total contributed reported by a projection over at least one
period equals the initial capital plus one monthly contribution for every
period after the first, i.e. `initial + contribution * (horizon - 1)`;
with a one-month horizon and zero contribution it is exactly the initial
capital. -/
theorem C8_total_contribution (fund : Fund) (params : Params)
    (h : 1 ≤ params.investment_period) :
    (calculate_returns fund params).total_contribution
      = params.initial_capital
        + params.monthly_contribution * ((params.investment_period - 1 : ℕ) : ℚ) := by
  obtain ⟨k, hk⟩ : ∃ k, params.investment_period = k + 1 :=
    ⟨params.investment_period - 1, by omega⟩
  rw [calculate_returns_contribution, hk]
  simp only [projLoop]
  rw [projLoop_contribution_pos fund params k 1 _ (le_refl 1),
    projStep_contribution]
  simp [initState]

/-- Witness for C8: `horizon_months = 1`, `monthly_contribution = 0` —
the total contributed is the initial capital (500) exactly. -/
theorem C8_total_contribution_witness :
    1 ≤ params500.investment_period ∧
    (calculate_returns fundB params500).total_contribution
      = params500.initial_capital
        + params500.monthly_contribution * ((params500.investment_period - 1 : ℕ) : ℚ) :=
  ⟨by decide, C8_total_contribution fundB params500 (by decide)⟩

/-- C1 fails on the code and the exclusion is the documented intent:
`validate_parameters` computes the funds whose minimum investment exceeds
the initial capital and prints them under the comment "funds that will be
excluded", but it filters nothing, and `print_results` projects every
fund of `self.funds`.  With minimum investments 1000 (`fundA`) and 100
(`fundB`) and initial capital 500, validation passes, `fundA` is the fund
reported in the note — and BOTH funds are nonetheless projected. -/
theorem C1_code_bug :
    (500 : ℚ) < fundA.minimum_investment ∧
    fundB.minimum_investment ≤ (500 : ℚ) ∧
    validate_parameters [fundA, fundB] params500 = .ok [fundA] ∧
    ((compareFunds (fun f => calculate_returnsE okStep f params500)
        [fundA, fundB]).1.map Prod.fst) = [fundA, fundB] :=
  ⟨by norm_num [fundA], by norm_num [fundB], rfl, rfl⟩

/-- The results side of the comparator loop: every fund whose calculation
succeeds appears there with its result, in input order, regardless of
other funds failing. -/
theorem compareFunds_results (calcFn : Fund → Except String ProjResult)
    (funds : List Fund) :
    (compareFunds calcFn funds).1
      = funds.filterMap (fun f =>
          match calcFn f with
          | .ok r => some (f, r)
          | .error _ => none) := by
  induction funds with
  | nil => rfl
  | cons fund rest ih =>
    simp only [compareFunds]
    cases hc : calcFn fund <;> simp [hc, List.filterMap_cons, ih]

/-- The warnings side of the comparator loop: a fund of the list whose
calculation fails is reported there with its message. -/
theorem compareFunds_warning (calcFn : Fund → Except String ProjResult)
    (fund : Fund) (e : String) (hc : calcFn fund = .error e)
    (funds : List Fund) (hmem : fund ∈ funds) :
    (fund, e) ∈ (compareFunds calcFn funds).2 := by
  induction funds with
  | nil => cases hmem
  | cons g rest ih =>
    simp only [compareFunds]
    rcases List.mem_cons.mp hmem with hg | hmem'
    · rw [← hg, hc]
      exact List.mem_cons_self _ _
    · cases hg : calcFn g with
      | ok r => simpa using ih hmem'
      | error e2 => exact List.mem_cons_of_mem _ (ih hmem')

/-- C9: an error raised inside a fund's projection loop is wrapped into a
failure message naming the fund, and the comparator reports exactly that
message as a warning for that fund while the results keep every fund
whose calculation succeeded. -/
theorem C9_per_fund_failure (step : StepFn) (params : Params) (fund : Fund)
    (funds : List Fund) (e : String)
    (h : projLoopE step fund params params.investment_period 0 (initState params)
      = .error e)
    (hmem : fund ∈ funds) :
    calculate_returnsE step fund params
      = .error ("Error calculating returns for " ++ fund.name ++ ": " ++ e) ∧
    (fund, "Error calculating returns for " ++ fund.name ++ ": " ++ e)
      ∈ (compareFunds (fun f => calculate_returnsE step f params) funds).2 ∧
    (compareFunds (fun f => calculate_returnsE step f params) funds).1
      = funds.filterMap (fun f =>
          match calculate_returnsE step f params with
          | .ok r => some (f, r)
          | .error _ => none) := by
  have h1 : calculate_returnsE step fund params
      = .error ("Error calculating returns for " ++ fund.name ++ ": " ++ e) := by
    simp only [calculate_returnsE, h]
  exact ⟨h1, compareFunds_warning _ fund _ h1 funds hmem,
    compareFunds_results _ funds⟩

/-- Witness for C9: `badStep` corrupts the monthly computation of
`badFund` only; its failure is wrapped with the fund's name, reported as
a warning, and the other fund's projection proceeds. -/
theorem C9_per_fund_failure_witness :
    projLoopE badStep badFund params500 params500.investment_period 0
        (initState params500) = .error "corrupt rate" ∧
    badFund ∈ [badFund, goodFund] ∧
    (calculate_returnsE badStep badFund params500
        = .error ("Error calculating returns for " ++ badFund.name ++ ": "
            ++ "corrupt rate") ∧
      (badFund, "Error calculating returns for " ++ badFund.name ++ ": "
          ++ "corrupt rate")
        ∈ (compareFunds (fun f => calculate_returnsE badStep f params500)
            [badFund, goodFund]).2 ∧
      (compareFunds (fun f => calculate_returnsE badStep f params500)
          [badFund, goodFund]).1
        = [badFund, goodFund].filterMap (fun f =>
            match calculate_returnsE badStep f params500 with
            | .ok r => some (f, r)
            | .error _ => none)) :=
  ⟨rfl, List.mem_cons_self _ _,
    C9_per_fund_failure badStep params500 badFund [badFund, goodFund]
      "corrupt rate" rfl (List.mem_cons_self _ _)⟩
